import Mathlib

/-!
Shallow embedding of the KubeLiteDB controller core (controller.go and
pkg/apis/kubelitedb/v1/types.go): the level-triggered reconciliation loop.
External collaborators from k8s.io (the lister, the workqueue, the status
client) are modelled as an explicit environment; the controller functions are
translated directly from the Go source, recording their externally visible
effects (queue operations, status writes, recorded events, errors handed to
the runtime error sink) as explicit traces.
-/

namespace KubeLiteDB

/-- SQLiteInstanceSpec, from pkg/apis/kubelitedb/v1/types.go. -/
structure SQLiteInstanceSpec where
  dbName : String
  storage : String
  replicas : Int
deriving DecidableEq, Repr

/-- SQLiteInstanceStatus, from pkg/apis/kubelitedb/v1/types.go: a single
coarse phase string. -/
structure SQLiteInstanceStatus where
  phase : String
deriving DecidableEq, Repr

/-- SQLiteInstance, from pkg/apis/kubelitedb/v1/types.go; of ObjectMeta we
keep the two fields the controller reads (Namespace and Name). -/
structure SQLiteInstance where
  ns : String
  name : String
  spec : SQLiteInstanceSpec
  status : SQLiteInstanceStatus
deriving DecidableEq, Repr

/-- DeepCopy of the generated API type: produces a value equal to, and
(in Go) structurally disjoint from, the original. With Lean's value
semantics the copy is the value itself. -/
def SQLiteInstance.deepCopy (s : SQLiteInstance) : SQLiteInstance := s

/-- Splitting a character list at every slash: the semantics of Go's
strings.Split(key, "/"). The result always has one more part than the
number of slashes; the empty list case of the inner match is unreachable
since the recursion never returns an empty list of parts. -/
def splitSlash : List Char → List (List Char)
  | [] => [[]]
  | c :: cs =>
      match splitSlash cs with
      | [] => [[c]]
      | p :: ps => if c = '/' then [] :: p :: ps else (c :: p) :: ps

/-- cache.SplitMetaNamespaceKey from k8s.io/client-go/tools/cache:
splits on "/"; one part means cluster-scoped (empty namespace), two parts
means namespace/name, anything else is a malformed key (error, here none). -/
def splitMetaNamespaceKey (key : String) : Option (String × String) :=
  match (splitSlash key.data).map (fun l => String.mk l) with
  | [n] => some ("", n)
  | [ns, n] => some (ns, n)
  | _ => none

/-- Result of a lister lookup `sqliteInstancesLister.SQLiteInstances(ns).Get(name)`:
the object, a not-found error, or some other lookup error. -/
inductive LookupResult where
  | found (obj : SQLiteInstance)
  | notFound
  | lookupFailure
deriving DecidableEq, Repr

/-- The external collaborators consumed by the controller: the Resource Store
point lookup and the outcome of the status-subresource update call. -/
structure Env where
  lookup : String → String → LookupResult
  updateStatusErr : SQLiteInstance → Bool

/-- The Go constant SuccessSynced. -/
def SuccessSynced : String := "Synced"

/-- The Go constant MessageResourceSynced. -/
def MessageResourceSynced : String := "SQLiteInstance synced successfully"

/-- corev1.EventTypeNormal. -/
def EventTypeNormal : String := "Normal"

/-- One recorder.Event call: event type, reason, message. -/
structure Event where
  etype : String
  reason : String
  message : String
deriving DecidableEq, Repr

/-- A write issued against the API server: either a status-subresource
update (the only one the controller uses) or a generic object update
(present in the model so its absence can be stated). Each records the
namespace the client was scoped to and the object sent. -/
inductive WriteOp where
  | updateStatus (ns : String) (obj : SQLiteInstance)
  | update (ns : String) (obj : SQLiteInstance)
deriving DecidableEq, Repr

/-- The phase carried by a write. -/
def writtenPhase : WriteOp → String
  | WriteOp.updateStatus _ o => o.status.phase
  | WriteOp.update _ o => o.status.phase

/-- True iff the write goes through the status-subresource path. -/
def isStatusUpdateOp : WriteOp → Bool
  | WriteOp.updateStatus _ _ => true
  | WriteOp.update _ _ => false

/-- The error syncHandler can return: the lister error propagated from a
lookup failure other than not-found, or the UpdateStatus error. -/
inductive SyncError where
  | lookupFailure
  | updateStatusFailure
deriving DecidableEq, Repr

/-- Observable outcome of one syncHandler call: the returned error, the
API writes issued, the events recorded, and the messages handed to
utilruntime.HandleError inside syncHandler. -/
structure SyncResult where
  err : Option SyncError
  writes : List WriteOp
  events : List Event
  handledErrors : List String
deriving DecidableEq, Repr

/-- updateSQLiteInstanceStatus from controller.go: deep-copies the object,
sets the copy's Status.Phase to "Running", and issues UpdateStatus against
the client scoped to the original object's Namespace. Returns the write
issued and the error of the call. -/
def updateSQLiteInstanceStatus (env : Env) (sqliteInstance : SQLiteInstance) :
    WriteOp × Option SyncError :=
  let c0 := sqliteInstance.deepCopy
  let sqliteInstanceCopy :=
    { c0 with status := { c0.status with phase := "Running" } }
  ( WriteOp.updateStatus sqliteInstance.ns sqliteInstanceCopy
  , if env.updateStatusErr sqliteInstanceCopy then some SyncError.updateStatusFailure
    else none )

/-- syncHandler from controller.go: split the key; on a malformed key report
and return nil; look the object up; on not-found report and return nil; on
another lookup error return it; otherwise update the status, returning its
error, and on success record one Normal/Synced event. -/
def syncHandler (env : Env) (key : String) : SyncResult :=
  match splitMetaNamespaceKey key with
  | none =>
      { err := none, writes := [], events := []
      , handledErrors := ["invalid resource key: " ++ key] }
  | some (ns, name) =>
      match env.lookup ns name with
      | LookupResult.notFound =>
          { err := none, writes := [], events := []
          , handledErrors :=
              ["sqliteinstance " ++ key ++ " in work queue no longer exists"] }
      | LookupResult.lookupFailure =>
          { err := some SyncError.lookupFailure, writes := [], events := []
          , handledErrors := [] }
      | LookupResult.found sqliteInstance =>
          let r := updateSQLiteInstanceStatus env sqliteInstance
          match r.2 with
          | some e =>
              { err := some e, writes := [r.1], events := [], handledErrors := [] }
          | none =>
              { err := none, writes := [r.1]
              , events := [{ etype := EventTypeNormal, reason := SuccessSynced
                           , message := MessageResourceSynced }]
              , handledErrors := [] }

/-- An item held by the workqueue: in Go an interface value, either the
expected namespace/name key string or something else entirely. -/
inductive WorkItem where
  | str (key : String)
  | nonString
deriving DecidableEq, Repr

/-- Result of workqueue.Get(): an item, or the shutdown signal. -/
inductive GetResult where
  | item (obj : WorkItem)
  | shutdown
deriving DecidableEq, Repr

/-- One call the controller makes on the workqueue while processing. -/
inductive QueueOp where
  | done (obj : WorkItem)
  | forget (obj : WorkItem)
  | addRateLimited (key : String)
deriving DecidableEq, Repr

/-- Observable outcome of one processNextWorkItem call: the returned Bool,
the workqueue calls in execution order (the deferred Done runs last), the
syncHandler outcome when syncHandler was invoked, and the messages handed
to utilruntime.HandleError by processNextWorkItem itself. -/
structure ProcessResult where
  cont : Bool
  ops : List QueueOp
  sync : Option SyncResult
  handledErrors : List String
deriving DecidableEq, Repr

/-- processNextWorkItem from controller.go: on shutdown return false;
otherwise, with Done deferred, Forget a non-string item and report it;
for a key, run syncHandler, AddRateLimited on error (reporting the wrapped
error after the inner func returns) and Forget on success; return true. -/
def processNextWorkItem (env : Env) (g : GetResult) : ProcessResult :=
  match g with
  | GetResult.shutdown =>
      { cont := false, ops := [], sync := none, handledErrors := [] }
  | GetResult.item WorkItem.nonString =>
      { cont := true
      , ops := [QueueOp.forget WorkItem.nonString, QueueOp.done WorkItem.nonString]
      , sync := none
      , handledErrors := ["expected string in workqueue but got non-string"] }
  | GetResult.item (WorkItem.str key) =>
      let s := syncHandler env key
      match s.err with
      | some _ =>
          { cont := true
          , ops := [QueueOp.addRateLimited key, QueueOp.done (WorkItem.str key)]
          , sync := some s
          , handledErrors := ["error syncing " ++ key ++ ", requeuing"] }
      | none =>
          { cont := true
          , ops := [QueueOp.forget (WorkItem.str key), QueueOp.done (WorkItem.str key)]
          , sync := some s
          , handledErrors := [] }

/-- runWorker from controller.go, unrolled over a finite trace of Get
results: keeps calling processNextWorkItem while it returns true. -/
def runWorker (env : Env) : List GetResult → List ProcessResult
  | [] => []
  | g :: gs =>
      let r := processNextWorkItem env g
      if r.cont then r :: runWorker env gs else [r]

/-- A raw object handed to an informer event handler: either one with
readable metadata or one on which key derivation fails. -/
inductive RawObj where
  | valid (ns : String) (name : String)
  | malformed
deriving DecidableEq, Repr

/-- cache.MetaNamespaceKeyFunc from k8s.io/client-go/tools/cache: the
namespace/name key, or the bare name for an empty namespace; an error on
an object without readable metadata. -/
def metaNamespaceKeyFunc : RawObj → Option String
  | RawObj.valid ns name => some (if ns = "" then name else ns ++ "/" ++ name)
  | RawObj.malformed => none

/-- Observable outcome of one event-handler call: keys added to the
workqueue and messages handed to utilruntime.HandleError. -/
structure EnqueueResult where
  added : List String
  handledErrors : List String
deriving DecidableEq, Repr

/-- enqueueSQLiteInstance from controller.go: derive the key; on failure
report and return without enqueueing; otherwise Add the key. -/
def enqueueSQLiteInstance (obj : RawObj) : EnqueueResult :=
  match metaNamespaceKeyFunc obj with
  | none => { added := [], handledErrors := ["key derivation failed"] }
  | some key => { added := [key], handledErrors := [] }

/-- The AddFunc handler registered in NewController. -/
def addFunc (obj : RawObj) : EnqueueResult := enqueueSQLiteInstance obj

/-- The UpdateFunc handler registered in NewController: enqueues the new
object, discarding the old one. -/
def updateFunc (old new : RawObj) : EnqueueResult := enqueueSQLiteInstance new

/-- The DeleteFunc handler registered in NewController. -/
def deleteFunc (obj : RawObj) : EnqueueResult := enqueueSQLiteInstance obj

/-- Outcome of Run: the returned error and how many worker loops were
launched. -/
structure RunResult where
  err : Option String
  workersStarted : Nat
deriving DecidableEq, Repr

/-- Run from controller.go, parameterised by whether WaitForCacheSync
completed before the cancellation signal: if it did not, return an error
having started no workers; otherwise start `workers` loops and return nil
once the context is done. -/
def Run (cacheSynced : Bool) (workers : Nat) : RunResult :=
  if cacheSynced then { err := none, workersStarted := workers }
  else { err := some "failed to wait for caches to sync", workersStarted := 0 }

/-- Allowed single steps of the informal phase chain
Unknown → Pending → Running: one forward edge, or staying in place. -/
def chainStep (a b : String) : Bool :=
  (a == "Unknown" && b == "Pending") || (a == "Pending" && b == "Running") || a == b

end KubeLiteDB

namespace KubeLiteDB

/-! Concrete fixtures used by witnesses and counterexamples. -/

/-- A concrete SQLiteInstance whose observed phase is "Unknown". -/
def obj0 : SQLiteInstance :=
  { ns := "ns", name := "foo"
  , spec := { dbName := "db", storage := "1Gi", replicas := 1 }
  , status := { phase := "Unknown" } }

/-- An environment in which every lookup reports not-found. -/
def envAllNotFound : Env :=
  { lookup := fun _ _ => LookupResult.notFound, updateStatusErr := fun _ => false }

/-- An environment in which every lookup fails with a non-not-found error. -/
def envLookupFails : Env :=
  { lookup := fun _ _ => LookupResult.lookupFailure, updateStatusErr := fun _ => false }

/-- An environment in which every lookup finds obj0 and UpdateStatus
succeeds. -/
def envFound : Env :=
  { lookup := fun _ _ => LookupResult.found obj0, updateStatusErr := fun _ => false }

/-- C1: a dequeued key that is malformed, or whose object is not found at
processing time, makes syncHandler return nil with no status-update call,
and processNextWorkItem Forgets the key (then Done); no AddRateLimited is
issued, so the key is not requeued and incurs zero retries. -/
theorem C1_malformed_or_notfound_dropped (env : Env) (key : String)
    (h : splitMetaNamespaceKey key = none ∨
      ∃ ns n, splitMetaNamespaceKey key = some (ns, n) ∧
        env.lookup ns n = LookupResult.notFound) :
    (syncHandler env key).err = none ∧
    (syncHandler env key).writes = [] ∧
    (processNextWorkItem env (GetResult.item (WorkItem.str key))).ops =
      [QueueOp.forget (WorkItem.str key), QueueOp.done (WorkItem.str key)] := by
  have hs : (syncHandler env key).err = none ∧ (syncHandler env key).writes = [] := by
    rcases h with h | ⟨ns, n, h1, h2⟩
    · simp [syncHandler, h]
    · simp [syncHandler, h1, h2]
  refine ⟨hs.1, hs.2, ?_⟩
  simp [processNextWorkItem, hs.1]

/-- Witness for C1 at the not-found environment and the key "ns/foo". -/
theorem C1_witness :
    (syncHandler envAllNotFound "ns/foo").err = none ∧
    (syncHandler envAllNotFound "ns/foo").writes = [] ∧
    (processNextWorkItem envAllNotFound (GetResult.item (WorkItem.str "ns/foo"))).ops =
      [QueueOp.forget (WorkItem.str "ns/foo"), QueueOp.done (WorkItem.str "ns/foo")] :=
  C1_malformed_or_notfound_dropped envAllNotFound "ns/foo"
    (Or.inr ⟨"ns", "foo", by decide, rfl⟩)

/-- C2: when syncHandler returns a non-nil error, processNextWorkItem
issues AddRateLimited on the key and Done, never Forget, and hands the
wrapped error to the error-handling sink. -/
theorem C2_error_requeued_not_forgotten (env : Env) (key : String)
    (h : (syncHandler env key).err.isSome = true) :
    (processNextWorkItem env (GetResult.item (WorkItem.str key))).ops =
      [QueueOp.addRateLimited key, QueueOp.done (WorkItem.str key)] ∧
    (processNextWorkItem env (GetResult.item (WorkItem.str key))).handledErrors =
      ["error syncing " ++ key ++ ", requeuing"] := by
  obtain ⟨e, he⟩ := Option.isSome_iff_exists.mp h
  constructor <;> simp [processNextWorkItem, he]

/-- Witness for C2 at the failing-lookup environment and the key "ns/foo". -/
theorem C2_witness :
    (syncHandler envLookupFails "ns/foo").err.isSome = true ∧
    (processNextWorkItem envLookupFails (GetResult.item (WorkItem.str "ns/foo"))).ops =
      [QueueOp.addRateLimited "ns/foo", QueueOp.done (WorkItem.str "ns/foo")] :=
  ⟨by decide, (C2_error_requeued_not_forgotten envLookupFails "ns/foo" (by decide)).1⟩

/-- C3: on a successful sync pass (object found, status update succeeds)
exactly one Normal "Synced" event is emitted and processNextWorkItem
Forgets the key. -/
theorem C3_success_event_and_forget (env : Env) (key ns n : String)
    (obj : SQLiteInstance)
    (h1 : splitMetaNamespaceKey key = some (ns, n))
    (h2 : env.lookup ns n = LookupResult.found obj)
    (h3 : env.updateStatusErr
      { obj with status := { obj.status with phase := "Running" } } = false) :
    (syncHandler env key).events =
      [{ etype := EventTypeNormal, reason := SuccessSynced
       , message := MessageResourceSynced }] ∧
    (processNextWorkItem env (GetResult.item (WorkItem.str key))).ops =
      [QueueOp.forget (WorkItem.str key), QueueOp.done (WorkItem.str key)] := by
  have hs : (syncHandler env key).events =
      [{ etype := EventTypeNormal, reason := SuccessSynced
       , message := MessageResourceSynced }] ∧ (syncHandler env key).err = none := by
    constructor <;>
      simp [syncHandler, h1, h2, updateSQLiteInstanceStatus, SQLiteInstance.deepCopy, h3]
  refine ⟨hs.1, ?_⟩
  simp [processNextWorkItem, hs.2]

/-- Witness for C3 at the found-object environment and the key "ns/foo". -/
theorem C3_witness :
    (syncHandler envFound "ns/foo").events =
      [{ etype := EventTypeNormal, reason := SuccessSynced
       , message := MessageResourceSynced }] ∧
    (processNextWorkItem envFound (GetResult.item (WorkItem.str "ns/foo"))).ops =
      [QueueOp.forget (WorkItem.str "ns/foo"), QueueOp.done (WorkItem.str "ns/foo")] :=
  C3_success_event_and_forget envFound "ns/foo" "ns" "foo" obj0 (by decide) rfl rfl

end KubeLiteDB

namespace KubeLiteDB

/-- C4 counterexample: a successful reconcile of an object whose phase is
"Unknown" writes phase "Running" directly, and "Unknown" to "Running" is
not a step of the chain Unknown → Pending → Running (neither a forward
edge nor staying in place), so the transitions do not follow that state
machine. -/
theorem C4_counterexample :
    obj0.status.phase = "Unknown" ∧
    (syncHandler envFound "ns/foo").err = none ∧
    (syncHandler envFound "ns/foo").writes =
      [WriteOp.updateStatus "ns" { obj0 with status := { phase := "Running" } }] ∧
    chainStep obj0.status.phase
      (writtenPhase
        (WriteOp.updateStatus "ns" { obj0 with status := { phase := "Running" } })) =
      false := by
  refine ⟨rfl, ?_, ?_, by decide⟩ <;> decide

/-- C4 amended: every status write issued by a sync pass carries phase
"Running" (so in particular no terminal or deleted phase is ever written,
and the only transitions are jumps straight to "Running" driven by
reconcile passes), and when the object is absent from the Resource Store
the pass issues no status write at all. -/
theorem C4_running_writes_only (env : Env) (key : String) :
    ((syncHandler env key).writes.all (fun w => writtenPhase w == "Running")) = true ∧
    (∀ ns n, splitMetaNamespaceKey key = some (ns, n) →
      env.lookup ns n = LookupResult.notFound → (syncHandler env key).writes = []) := by
  constructor
  · cases hsp : splitMetaNamespaceKey key with
    | none => simp [syncHandler, hsp]
    | some p =>
      obtain ⟨ns, n⟩ := p
      cases hl : env.lookup ns n with
      | found obj =>
        cases hu : env.updateStatusErr
            { obj with status := { obj.status with phase := "Running" } } <;>
          simp [syncHandler, hsp, hl, updateSQLiteInstanceStatus,
            SQLiteInstance.deepCopy, hu, writtenPhase]
      | notFound => simp [syncHandler, hsp, hl]
      | lookupFailure => simp [syncHandler, hsp, hl]
  · intro ns n h1 h2
    simp [syncHandler, h1, h2]

/-- Witness for C4: the found-object environment writes only "Running",
and the not-found environment writes nothing. -/
theorem C4_witness :
    ((syncHandler envFound "ns/foo").writes.all
      (fun w => writtenPhase w == "Running")) = true ∧
    (syncHandler envAllNotFound "ns/foo").writes = [] :=
  ⟨(C4_running_writes_only envFound "ns/foo").1,
   (C4_running_writes_only envAllNotFound "ns/foo").2 "ns" "foo" (by decide) rfl⟩

/-- C5: the status update targets a deep copy equal to the original except
that Status.Phase becomes "Running" (Spec, namespace and name unchanged);
the copy, not the cached object, is what is sent; and every write a sync
pass issues goes through the status-subresource path, never the generic
update path. -/
theorem C5_copy_on_write_status_only (env : Env) (obj : SQLiteInstance) (key : String) :
    SQLiteInstance.deepCopy obj = obj ∧
    (updateSQLiteInstanceStatus env obj).1 =
      WriteOp.updateStatus obj.ns
        { obj with status := { obj.status with phase := "Running" } } ∧
    ({ obj with status := { obj.status with phase := "Running" } } : SQLiteInstance).spec
      = obj.spec ∧
    ({ obj with status := { obj.status with phase := "Running" } } : SQLiteInstance).ns
      = obj.ns ∧
    ({ obj with status := { obj.status with phase := "Running" } } : SQLiteInstance).name
      = obj.name ∧
    ((syncHandler env key).writes.all isStatusUpdateOp) = true := by
  refine ⟨rfl, rfl, rfl, rfl, rfl, ?_⟩
  cases hsp : splitMetaNamespaceKey key with
  | none => simp [syncHandler, hsp]
  | some p =>
    obtain ⟨ns, n⟩ := p
    cases hl : env.lookup ns n with
    | found o =>
      cases hu : env.updateStatusErr
          { o with status := { o.status with phase := "Running" } } <;>
        simp [syncHandler, hsp, hl, updateSQLiteInstanceStatus,
          SQLiteInstance.deepCopy, hu, isStatusUpdateOp]
    | notFound => simp [syncHandler, hsp, hl]
    | lookupFailure => simp [syncHandler, hsp, hl]

/-- C6: when the cache sync does not complete before cancellation, Run
returns a non-nil error and starts zero workers; when it does complete,
Run returns nil and starts exactly the requested number of workers. -/
theorem C6_no_sync_no_workers (workers : Nat) :
    (Run false workers).err = some "failed to wait for caches to sync" ∧
    (Run false workers).workersStarted = 0 ∧
    (Run true workers).err = none ∧
    (Run true workers).workersStarted = workers := by
  simp [Run]

/-- C7: for every item returned by a non-shutdown Get, Done is called on
that item exactly once, on every path (non-string item, malformed key,
not-found, sync error, success). -/
theorem C7_done_exactly_once (env : Env) (obj : WorkItem) :
    (processNextWorkItem env (GetResult.item obj)).ops.count (QueueOp.done obj) = 1 := by
  cases obj with
  | nonString => simp [processNextWorkItem]
  | str key =>
    cases he : (syncHandler env key).err <;>
      simp [processNextWorkItem, he]

/-- C8: processNextWorkItem returns false exactly on a shutting-down
queue, so a worker loop processes every item of a trace and exits only at
the shutdown signal, never because an individual sync failed. -/
theorem C8_worker_survives_failures (env : Env) (g : GetResult) :
    (processNextWorkItem env g).cont = !(g == GetResult.shutdown) ∧
    (∀ obj gs, runWorker env (GetResult.item obj :: gs) =
      processNextWorkItem env (GetResult.item obj) :: runWorker env gs) ∧
    (∀ gs : List GetResult, runWorker env (GetResult.shutdown :: gs) =
      [processNextWorkItem env GetResult.shutdown]) := by
  have hcont : ∀ g2 : GetResult,
      (processNextWorkItem env g2).cont = !(g2 == GetResult.shutdown) := by
    intro g2
    cases g2 with
    | shutdown => simp [processNextWorkItem]
    | item obj =>
      cases obj with
      | nonString => simp [processNextWorkItem]
      | str key => cases he : (syncHandler env key).err <;> simp [processNextWorkItem, he]
  refine ⟨hcont g, ?_, ?_⟩
  · intro obj gs
    have h1 : (processNextWorkItem env (GetResult.item obj)).cont = true := by
      simpa using hcont (GetResult.item obj)
    simp [runWorker, h1]
  · intro gs
    have h2 : (processNextWorkItem env GetResult.shutdown).cont = false := by
      simpa using hcont GetResult.shutdown
    simp [runWorker, h2]

/-- C9: each of the three registered handlers derives the namespace/name
key of its object and Adds exactly that key; the update handler depends
only on the new object; and on key-derivation failure the error is
reported and nothing is enqueued. -/
theorem C9_handlers_enqueue_key (ns name : String) (old old2 o : RawObj) :
    addFunc (RawObj.valid ns name) =
      { added := [if ns = "" then name else ns ++ "/" ++ name], handledErrors := [] } ∧
    updateFunc old (RawObj.valid ns name) =
      { added := [if ns = "" then name else ns ++ "/" ++ name], handledErrors := [] } ∧
    deleteFunc (RawObj.valid ns name) =
      { added := [if ns = "" then name else ns ++ "/" ++ name], handledErrors := [] } ∧
    updateFunc old o = updateFunc old2 o ∧
    addFunc RawObj.malformed =
      { added := [], handledErrors := ["key derivation failed"] } ∧
    updateFunc old RawObj.malformed =
      { added := [], handledErrors := ["key derivation failed"] } ∧
    deleteFunc RawObj.malformed =
      { added := [], handledErrors := ["key derivation failed"] } := by
  refine ⟨?_, ?_, ?_, rfl, rfl, rfl, rfl⟩ <;>
    simp [addFunc, updateFunc, deleteFunc, enqueueSQLiteInstance, metaNamespaceKeyFunc]

/-- C10: a non-string item dequeued from the workqueue is Forgotten and
then marked Done, syncHandler is never invoked, the error is reported,
and processNextWorkItem returns true so the worker continues. -/
theorem C10_nonstring_dropped (env : Env) :
    (processNextWorkItem env (GetResult.item WorkItem.nonString)).ops =
      [QueueOp.forget WorkItem.nonString, QueueOp.done WorkItem.nonString] ∧
    (processNextWorkItem env (GetResult.item WorkItem.nonString)).sync = none ∧
    (processNextWorkItem env (GetResult.item WorkItem.nonString)).handledErrors =
      ["expected string in workqueue but got non-string"] ∧
    (processNextWorkItem env (GetResult.item WorkItem.nonString)).cont = true :=
  ⟨rfl, rfl, rfl, rfl⟩

end KubeLiteDB
